import Mathlib

/-!
Verification of the "one-click setup" provisioning orchestrator of the
helix-sidekick extension (`src/extension/hellofranklin.js` and its sibling
revisions).  The JavaScript module is shallowly embedded: every network or
browser interaction reads its outcome from an explicit environment record,
and a run produces an explicit trace of emitted status messages, publish
events and attempted network calls.  JavaScript strings are modelled by
Lean `String`, absent object fields by `Option`, and a rejected promise or
thrown exception by `Except.error`.
-/

/-! ## JavaScript string primitives -/

/-- Boolean prefix test on character lists (used to model
`String.prototype.indexOf` / `includes`). -/
def listPrefixB : List Char → List Char → Bool
  | [], _ => true
  | _ :: _, [] => false
  | a :: as, b :: bs => a == b && listPrefixB as bs

theorem listPrefixB_self_append (p t : List Char) : listPrefixB p (p ++ t) = true := by
  induction p with
  | nil => rfl
  | cons a as ih => simp [listPrefixB, ih]

/-- Index of the first occurrence of `sub` in `l` (model of the search that
backs `indexOf`), `none` when absent. -/
def findSubIdx : List Char → List Char → Option Nat
  | [], sub => if sub.isEmpty then some 0 else none
  | c :: rest, sub =>
    if listPrefixB sub (c :: rest) then some 0
    else (findSubIdx rest sub).map (· + 1)

/-- JavaScript `String.prototype.includes`. -/
def jsIncludes (s sub : String) : Bool := (findSubIdx s.data sub.data).isSome

/-- JavaScript `String.prototype.indexOf`: position of the first occurrence,
`-1` when absent. -/
def jsIndexOf (s sub : String) : Int :=
  match findSubIdx s.data sub.data with
  | some n => (n : Int)
  | none => -1

/-- JavaScript `String.prototype.substring(start)`: clamps a negative start
to `0` and a start past the end to the end. -/
def jsSubstringFrom (s : String) (i : Int) : String :=
  String.mk (s.data.drop i.toNat)

/-- JavaScript `String.prototype.substring(start, end)`: clamps both indices
into `[0, length]` and swaps them when `start > end`. -/
def jsSubstring (s : String) (i j : Int) : String :=
  String.mk (((s.data).take (max (min i.toNat s.data.length) (min j.toNat s.data.length))).drop
    (min (min i.toNat s.data.length) (min j.toNat s.data.length)))

/-- Template-literal interpolation of a possibly-`null` JavaScript value. -/
def jsStringOfNull : Option String → String
  | none => "null"
  | some s => s

/-- Template-literal interpolation of a possibly-`undefined` JavaScript
value (an absent object field). -/
def jsStringOfUndefined : Option String → String
  | none => "undefined"
  | some s => s

theorem str_data_append (a b : String) : (a ++ b).data = a.data ++ b.data := rfl

theorem str_mk_data (s : String) : String.mk s.data = s := rfl

/-! ## Base64 (`btoa` / `atob`)

`btoa` maps each character (required to be a code point below 256) to a
byte, regroups the bytes into 6-bit values and writes them in the base64
alphabet, padding with `=`; `atob` inverts this.  Bytes and sextets are
modelled as `Nat`. -/

def b64Alphabet : List Char :=
  "ABCDEFGHIJKLMNOPQRSTUVWXYZabcdefghijklmnopqrstuvwxyz0123456789+/".data

def encB64 (n : Nat) : Char := b64Alphabet.getD n 'A'

def decB64 (c : Char) : Nat := b64Alphabet.findIdx (· == c)

/-- Regroup a byte sequence into base64 sextets (without padding). -/
def b64chunks : List Nat → List Nat
  | a :: b :: c :: rest =>
    a / 4 :: (a % 4 * 16 + b / 16) :: (b % 16 * 4 + c / 64) :: c % 64 :: b64chunks rest
  | [a, b] => [a / 4, a % 4 * 16 + b / 16, b % 16 * 4]
  | [a] => [a / 4, a % 4 * 16]
  | [] => []

/-- Regroup base64 sextets back into bytes. -/
def b64dechunks : List Nat → List Nat
  | s1 :: s2 :: s3 :: s4 :: rest =>
    (s1 * 4 + s2 / 16) :: (s2 % 16 * 16 + s3 / 4) :: (s3 % 4 * 64 + s4) :: b64dechunks rest
  | [s1, s2, s3] => [s1 * 4 + s2 / 16, s2 % 16 * 16 + s3 / 4]
  | [s1, s2] => [s1 * 4 + s2 / 16]
  | _ => []

theorem b64chunks_lt (l : List Nat) (h : ∀ x ∈ l, x < 256) :
    ∀ y ∈ b64chunks l, y < 64 := by
  induction l using b64chunks.induct with
  | case1 a b c rest ih =>
    have ha := h a (by simp)
    have hb := h b (by simp)
    have hc := h c (by simp)
    intro y hy
    simp only [b64chunks, List.mem_cons] at hy
    rcases hy with rfl | rfl | rfl | rfl | hy
    · omega
    · omega
    · omega
    · omega
    · exact ih (fun x hx => h x (by simp [hx])) y hy
  | case2 a b =>
    have ha := h a (by simp)
    have hb := h b (by simp)
    intro y hy
    simp only [b64chunks, List.mem_cons] at hy
    rcases hy with rfl | rfl | rfl | h0
    · omega
    · omega
    · omega
    · simp at h0
  | case3 a =>
    have ha := h a (by simp)
    intro y hy
    simp only [b64chunks, List.mem_cons] at hy
    rcases hy with rfl | rfl | h0
    · omega
    · omega
    · simp at h0
  | case4 => intro y hy; simp [b64chunks] at hy

theorem b64dechunks_b64chunks (l : List Nat) (h : ∀ x ∈ l, x < 256) :
    b64dechunks (b64chunks l) = l := by
  induction l using b64chunks.induct with
  | case1 a b c rest ih =>
    have ha := h a (by simp)
    have hb := h b (by simp)
    have hc := h c (by simp)
    have ih' := ih (fun x hx => h x (by simp [hx]))
    simp only [b64chunks, b64dechunks, ih', List.cons.injEq, and_true]
    refine ⟨by omega, by omega, by omega⟩
  | case2 a b =>
    have ha := h a (by simp)
    have hb := h b (by simp)
    simp only [b64chunks, b64dechunks, List.cons.injEq, and_true]
    exact ⟨by omega, by omega⟩
  | case3 a =>
    have ha := h a (by simp)
    simp only [b64chunks, b64dechunks, List.cons.injEq, and_true]
    omega
  | case4 => rfl

theorem decB64_encB64 : ∀ n : Fin 64, decB64 (encB64 n.val) = n.val := by decide

theorem encB64_ne_eq : ∀ n : Fin 64, (encB64 n.val == '=') = false := by decide

/-- JavaScript `btoa`: `none` models the `InvalidCharacterError` thrown on a
character above code point 255. -/
def btoa (s : String) : Option String :=
  if s.data.all (fun c => c.toNat < 256) then
    let sextets := b64chunks (s.data.map Char.toNat)
    let pad : List Char :=
      match s.data.length % 3 with
      | 1 => ['=', '=']
      | 2 => ['=']
      | _ => []
    some (String.mk (sextets.map encB64 ++ pad))
  else none

/-- JavaScript `atob` restricted to well-formed inputs: strips padding and
decodes the sextets back into characters. -/
def atob (s : String) : String :=
  String.mk ((b64dechunks ((s.data.filter (fun c => !(c == '='))).map decB64)).map Char.ofNat)

theorem atob_btoa (s : String) (h : ∀ c ∈ s.data, c.toNat < 256) :
    ∃ enc, btoa s = some enc ∧ atob enc = s := by
  have hall : s.data.all (fun c => c.toNat < 256) = true := by
    rw [List.all_eq_true]; intro c hc; simpa using h c hc
  have hbytes : ∀ x ∈ s.data.map Char.toNat, x < 256 := by
    intro x hx
    obtain ⟨c, hc, rfl⟩ := List.mem_map.mp hx
    exact h c hc
  have hsex : ∀ y ∈ b64chunks (s.data.map Char.toNat), y < 64 :=
    b64chunks_lt _ hbytes
  refine ⟨_, by rw [btoa, if_pos hall], ?_⟩
  rw [atob]
  have hfilter1 :
      ((b64chunks (s.data.map Char.toNat)).map encB64).filter (fun c => !(c == '=')) =
      (b64chunks (s.data.map Char.toNat)).map encB64 := by
    rw [List.filter_eq_self]
    intro c hc
    obtain ⟨y, hy, rfl⟩ := List.mem_map.mp hc
    have := encB64_ne_eq ⟨y, hsex y hy⟩
    simp only [Bool.not_eq_true']
    exact this
  have hfilter2 :
      (match s.data.length % 3 with
        | 1 => ['=', '=']
        | 2 => ['=']
        | _ => ([] : List Char)).filter (fun c => !(c == '=')) = [] := by
    rcases h3 : s.data.length % 3 with _ | _ | _ | n <;> simp
  simp only [str_mk_data, List.filter_append, hfilter1, hfilter2, List.append_nil]
  have hmapdec :
      ((b64chunks (s.data.map Char.toNat)).map encB64).map decB64 =
      b64chunks (s.data.map Char.toNat) := by
    rw [List.map_map]
    have : ∀ y ∈ b64chunks (s.data.map Char.toNat), (decB64 ∘ encB64) y = id y := by
      intro y hy
      simpa using decB64_encB64 ⟨y, hsex y hy⟩
    rw [List.map_congr_left this, List.map_id]
  rw [hmapdec, b64dechunks_b64chunks _ hbytes, List.map_map]
  have : ∀ c ∈ s.data, (Char.ofNat ∘ Char.toNat) c = id c := by
    intro c _
    simp [Char.ofNat_toNat]
  rw [List.map_congr_left this, List.map_id, str_mk_data]

/-! ## Data model

Response bodies are modelled as one record of optional fields, mirroring
the duck-typed JSON objects the extension reads (`error`, `id`, `files`,
`sha`, `commit`, `url`, `clone_url`, `errors`). -/

structure JsError where
  message : String
  deriving DecidableEq, Repr

structure ErrorInfo where
  message : Option String := none
  deriving DecidableEq, Repr

structure CommitInfo where
  message : Option String := none
  deriving DecidableEq, Repr

structure DriveFile where
  id : String
  name : String
  mimeType : String
  deriving DecidableEq, Repr

structure Body where
  error : Option ErrorInfo := none
  id : Option String := none
  files : Option (List DriveFile) := none
  sha : Option String := none
  commit : Option CommitInfo := none
  url : Option String := none
  clone_url : Option String := none
  errors : Option (List String) := none
  deriving DecidableEq, Repr

/-- `location` response header of the resumable-upload initiation call. -/
structure MetaResp where
  location : Option String := none
  deriving DecidableEq, Repr

/-- Value returned by `handleErrors`: either a string or the parsed body
object itself (the `errormsg = data` branch). -/
inductive ErrVal where
  | s (m : String)
  | obj (b : Body)
  deriving DecidableEq, Repr

/-- Template-literal interpolation of an `ErrVal`. -/
def errValToStr : ErrVal → String
  | .s m => m
  | .obj _ => "[object Object]"

/-- Outcomes of every external interaction of one provisioning run.  An
`Except.error` models a rejected promise (network failure or a JSON-parse
failure of the response body). -/
structure Env where
  gitAuthRedirect : Except JsError String
  gitTokenBody : Except JsError String
  createRepoStatus : Nat
  createRepoBody : Except JsError Body
  googleLastError : Bool
  googleAuthRedirect : Except JsError String
  createFolderStatus : Nat
  createFolderBody : Except JsError Body
  createPermissionBody : Except JsError Body
  fstabGetBody : Except JsError Body
  fstabPutBody : Except JsError Body
  templateQueryBody : Except JsError Body
  templateListBody : String → Except JsError Body
  fileExport : String → Except JsError Unit
  uploadInit : String → Except JsError MetaResp
  uploadPut : String → Except JsError Body

/-- Network calls attempted by the run, with the data interpolated into the
request that the claims talk about. -/
inductive NetCall where
  | gitAuthFlow
  | gitTokenCall
  | createRepoCall (name : String)
  | googleAuthFlow
  | createFolderCall (name token : String)
  | createPermissionCall (fileId token : String)
  | fstabGetCall (url : String)
  | fstabPutCall (url content : String)
  | templateQueryCall (templateName : String)
  | templateListCall (folderId : String)
  | fileExportCall (docId docType : String)
  | uploadInitCall (fileName docType : String)
  | uploadPutCall (location : String)
  | botFlowCall
  deriving DecidableEq, Repr

/-- Observable items of a run: `chrome.runtime.sendMessage` status updates,
the publish message, and attempted network calls. -/
inductive TraceItem where
  | statusMsg (message : String) (percentCompletion : Nat)
  | publishEvt (gitcloneUrl : Option String)
  | netCall (c : NetCall)
  deriving DecidableEq, Repr

/-! ## The run monad: a writer of trace items over `Except` -/

structure Run (α : Type) where
  trace : List TraceItem
  result : Except JsError α

instance : Monad Run where
  pure a := ⟨[], .ok a⟩
  bind x f :=
    match x.result with
    | .ok a => ⟨x.trace ++ (f a).trace, (f a).result⟩
    | .error e => ⟨x.trace, .error e⟩

def emit (i : TraceItem) : Run Unit := ⟨[i], .ok ()⟩

def liftEx {α : Type} (x : Except JsError α) : Run α := ⟨[], x⟩

def throwErr {α : Type} (m : String) : Run α := ⟨[], .error ⟨m⟩⟩

@[simp] theorem run_pure {α β : Type} (a : α) (f : α → Run β) :
    (pure a : Run α) >>= f = f a := by
  show Run.mk ([] ++ (f a).trace) (f a).result = f a
  simp

@[simp] theorem run_bind_ok {α β : Type} (t : List TraceItem) (a : α) (f : α → Run β) :
    (⟨t, .ok a⟩ : Run α) >>= f = ⟨t ++ (f a).trace, (f a).result⟩ := rfl

@[simp] theorem run_bind_error {α β : Type} (t : List TraceItem) (e : JsError) (f : α → Run β) :
    (⟨t, .error e⟩ : Run α) >>= f = ⟨t, .error e⟩ := rfl

@[simp] theorem emit_eq (i : TraceItem) : emit i = ⟨[i], .ok ()⟩ := rfl

@[simp] theorem liftEx_ok {α : Type} (a : α) : liftEx (.ok a) = (⟨[], .ok a⟩ : Run α) := rfl

@[simp] theorem liftEx_error {α : Type} (e : JsError) :
    liftEx (.error e) = (⟨[], .error e⟩ : Run α) := rfl

@[simp] theorem throwErr_eq {α : Type} (m : String) :
    (throwErr m : Run α) = ⟨[], .error ⟨m⟩⟩ := rfl

@[simp] theorem pure_eq {α : Type} (a : α) : (pure a : Run α) = ⟨[], .ok a⟩ := rfl

/-- Fire-and-forget execution of a promise chain: its network calls still
happen, but its result (including a rejection) is never observed by the
caller. -/
def detach {α : Type} (x : Run α) : Run Unit := ⟨x.trace, .ok ()⟩

/-! ## Trace predicates -/

def isNetCall : TraceItem → Bool
  | .netCall _ => true
  | _ => false

def isPublishEvt : TraceItem → Bool
  | .publishEvt _ => true
  | _ => false

def isEvent : TraceItem → Bool
  | .netCall _ => false
  | _ => true

/-- The terminal failure message of the orchestrator starts with this text;
no successful-path status message does. -/
def isFailureEvent : TraceItem → Bool
  | .statusMsg m _ => listPrefixB ("Failed to create Franklin Project").data m.data
  | _ => false

/-- Calls against the storage (Google Drive) side, including the storage
authorization flow. -/
def isStorageCall : TraceItem → Bool
  | .netCall .googleAuthFlow => true
  | .netCall (.createFolderCall _ _) => true
  | .netCall (.createPermissionCall _ _) => true
  | .netCall (.templateQueryCall _) => true
  | .netCall (.templateListCall _) => true
  | .netCall (.fileExportCall _ _) => true
  | .netCall (.uploadInitCall _ _) => true
  | .netCall (.uploadPutCall _) => true
  | _ => false

/-- The percent value of a status update, `none` for other trace items. -/
def pctOf : TraceItem → Option Nat
  | .statusMsg _ p => some p
  | _ => none

def pctsOf (l : List TraceItem) : List Nat := l.filterMap pctOf

def eventsOf (l : List TraceItem) : List TraceItem := l.filter isEvent

/-- `true` when the list consists of network calls only. -/
def onlyCalls (l : List TraceItem) : Bool := l.all isNetCall

/-! ## Embedding of `src/extension/hellofranklin.js` (main revision)

Each function mirrors the JavaScript source line by line; the comments
quote the construct being translated where the translation is not obvious. -/

/-- `handleErrors(data)`: extracts an error value from a parsed body.
`undefined` is modelled as `none`.  The inner `if (data.error.message)` is a
JavaScript truthiness test, so an absent message and the empty string both
fall to the `errormsg = data` branch, which yields the body object itself. -/
def handleErrors (data : Body) : Option ErrVal :=
  match data.error with
  | none => none
  | some err =>
    match err.message with
    | some msg =>
      if msg == "" then
        some (.obj data)
      else if jsIncludes msg "User message" then
        some (.s (jsSubstringFrom msg (jsIndexOf msg "User message" + 14)))
      else
        some (.s msg)
    | none => some (.obj data)

/-- `sendStatusMessage(statusMessage, percentCompletion)`. -/
def sendStatusMessage (statusMessage : String) (percentCompletion : Nat) : Run Unit :=
  emit (.statusMsg statusMessage percentCompletion)

/-- `publish(gitcloneUrl)`. -/
def publish (gitcloneUrl : Option String) : Run Unit :=
  emit (.publishEvt gitcloneUrl)

/-- `getGitHubAuthToken()`: interactive authorization; throws on an
`error=access_denied` redirect, otherwise scans the redirect for `code=`. -/
def getGitHubAuthToken (env : Env) : Run String := do
  emit (.netCall .gitAuthFlow)
  let redirectUrl ← liftEx env.gitAuthRedirect
  if jsIncludes redirectUrl "error=access_denied" then
    throwErr "Failed to Authorize Git :  Access denied !"
  else
    pure (jsSubstringFrom redirectUrl (jsIndexOf redirectUrl "code=" + 5))

/-- `getAccessToken(gitAuthToken)`: POSTs the code and scans the text body
for `access_token=...&`; performs no status or error check. -/
def getAccessToken (env : Env) (_gitAuthToken : String) : Run String := do
  emit (.netCall .gitTokenCall)
  let data ← liftEx env.gitTokenBody
  let accessToken := jsSubstringFrom data (jsIndexOf data "access_token=" + 13)
  pure (jsSubstring accessToken 0 (jsIndexOf accessToken "&"))

/-- `createUserRepo(repoName, accessToken)`: returns `response.json()`
directly; neither the HTTP status (`env.createRepoStatus`) nor an `errors`
array in the body is inspected. -/
def createUserRepo (env : Env) (repoName : String) (_accessToken : String) : Run Body := do
  emit (.netCall (.createRepoCall repoName))
  liftEx env.createRepoBody

/-- `getGoogleAccessToken()`: both the `chrome.runtime.lastError` branch and
the `access_denied` branch contain only commented-out code and fall through
to `return null`. -/
def getGoogleAccessToken (env : Env) : Run (Option String) := do
  emit (.netCall .googleAuthFlow)
  let redirectUrl ← liftEx env.googleAuthRedirect
  if env.googleLastError then
    pure none
  else if jsIncludes redirectUrl "access_denied" then
    pure none
  else
    let t1 := jsSubstringFrom redirectUrl (jsIndexOf redirectUrl "access_token=" + 13)
    pure (some (jsSubstring t1 0 (jsIndexOf t1 "&")))

/-- `createFolder(folderName, googleAccessToken)`: `let errormsg;` is never
assigned, so the thrown message interpolates `undefined`; the HTTP status
(`env.createFolderStatus`) is never consulted. -/
def createFolder (env : Env) (folderName : String) (googleAccessToken : Option String) :
    Run (Option String) := do
  emit (.netCall (.createFolderCall folderName (jsStringOfNull googleAccessToken)))
  let data ← liftEx env.createFolderBody
  let errormsg : Option String := none
  if (handleErrors data).isSome then
    throwErr ("\nFailed to create Google drive Folder : " ++ jsStringOfUndefined errormsg)
  else
    pure data.id

/-- `createPermission(fileId, googleAccessToken)`. -/
def createPermission (env : Env) (fileId : Option String) (googleAccessToken : Option String) :
    Run Unit := do
  emit (.netCall (.createPermissionCall (jsStringOfUndefined fileId)
    (jsStringOfNull googleAccessToken)))
  let data ← liftEx env.createPermissionBody
  match handleErrors data with
  | some v => throwErr ("\nFailed to give permission to Google drive Folder : " ++ errValToStr v)
  | none => pure ()

/-- The Drive folder URL interpolated into the mount configuration. -/
def driveFolderUrl (folderId : String) : String :=
  "https://drive.google.com/drive/folders/" ++ folderId

/-- The `contentString` template literal of `editFsTab`. -/
def fstabContent (folderId : String) : String :=
  "mountpoints:\n  /: " ++ driveFolderUrl folderId

/-- `editFsTab(giturl, gitAccessToken, folderId)`: GET the current file,
check the body for an error, PUT the base64-encoded new content with the
retrieved `sha`, check again, then read `data.commit.message` (a missing
`commit` or `message` raises a TypeError). -/
def editFsTab (env : Env) (giturl : String) (_gitAccessToken : String)
    (folderId : Option String) : Run Body := do
  let editfsTaburl := giturl ++ "/contents/fstab.yaml"
  emit (.netCall (.fstabGetCall editfsTaburl))
  let data1 ← liftEx env.fstabGetBody
  match handleErrors data1 with
  | some v => throwErr ("\nFailed to update FsTab : " ++ errValToStr v)
  | none =>
    match btoa (fstabContent (jsStringOfUndefined folderId)) with
    | none => throwErr "InvalidCharacterError"
    | some enc => do
      emit (.netCall (.fstabPutCall editfsTaburl enc))
      let data ← liftEx env.fstabPutBody
      match handleErrors data with
      | some v => throwErr ("\nFailed to update FsTab : " ++ errValToStr v)
      | none =>
        match data.commit with
        | none => throwErr "TypeError: Cannot read properties of undefined (reading 'message')"
        | some c =>
          match c.message with
          | none => throwErr "TypeError: Cannot read properties of undefined (reading 'includes')"
          | some _ => pure data

/-- `getFile(documentId, docType)`: a rejected export fetch is only logged,
after which `data.blob()` raises a TypeError on `undefined`. -/
def getFile (env : Env) (documentId : String) (docType : String) : Run Unit := do
  emit (.netCall (.fileExportCall documentId docType))
  match env.fileExport documentId with
  | .error _ => throwErr "TypeError: Cannot read properties of undefined (reading 'blob')"
  | .ok _ => pure ()

/-- `uploadFile(folderId, fileName, fileblob, docType, googleAccessToken)`:
initiate a resumable upload, then PUT the blob to the returned location.
`handleErrors(metaResponse)` inspects the `Response` object, which never has
an `error` field, so that check can never throw. -/
def uploadFile (env : Env) (fileName : String) (docType : String) : Run Unit := do
  emit (.netCall (.uploadInitCall fileName docType))
  let metaResponse ← liftEx (env.uploadInit fileName)
  emit (.netCall (.uploadPutCall (jsStringOfNull metaResponse.location)))
  let dataResponse ← liftEx (env.uploadPut fileName)
  match handleErrors dataResponse with
  | some v => throwErr ("\nFailed to create Tempate : " ++ errValToStr v)
  | none => pure ()

/-- `getTemplateFolderId(templatesFolderID, templateName, googleAccessToken)`:
queries children by name; the `handleErrors` result is discarded; iterating
`responseJson.files` raises a TypeError when the field is absent; returns
the id of the first match, `null` otherwise. -/
def getTemplateFolderId (env : Env) (templateName : String) : Run (Option String) := do
  emit (.netCall (.templateQueryCall templateName))
  let responseJson ← liftEx env.templateQueryBody
  let _ := handleErrors responseJson
  match responseJson.files with
  | none => throwErr "TypeError: responseJson.files is not iterable"
  | some fs => pure ((fs.find? (fun item => item.name == templateName)).map (·.id))

/-- `getFolderItemsByID(templateFolderID, googleAccessToken)`: returns
`responseJson.files` with no error or presence check. -/
def getFolderItemsByID (env : Env) (templateFolderID : String) :
    Run (Option (List DriveFile)) := do
  emit (.netCall (.templateListCall templateFolderID))
  let responseJson ← liftEx (env.templateListBody templateFolderID)
  pure responseJson.files

/-- `getDocumentType(fileMimeType)`. -/
def getDocumentType (fileMimeType : String) : String :=
  if fileMimeType == "application/vnd.google-apps.spreadsheet" then "xlsx"
  else if fileMimeType == "application/vnd.google-apps.document" then "docx"
  else if fileMimeType == "application/vnd.google-apps.folder" then "folder"
  else "file"

/-- One iteration of the copy loop in `addTemplate`: for a recognized type,
`getFile(...).then(result => uploadFile(...))` is started and never awaited,
so its network calls happen but any rejection is dropped. -/
def copyOne (env : Env) (f : DriveFile) : Run Unit :=
  if getDocumentType f.mimeType == "xlsx" || getDocumentType f.mimeType == "docx" then
    detach (do
      getFile env f.id (getDocumentType f.mimeType)
      uploadFile env f.name (getDocumentType f.mimeType))
  else
    pure ()

def copyLoop (env : Env) : List DriveFile → Run Unit
  | [] => pure ()
  | f :: fs => do
    copyOne env f
    copyLoop env fs

/-- `addTemplate(tempName, targetFolderId, gAccessToken)`: resolves the
template folder (a failed match yields `null`, which is interpolated as the
string `"null"` into the listing query), lists its children and copies the
recognized ones. -/
def addTemplate (env : Env) (tempName : String) (_targetFolderId : Option String) :
    Run Unit := do
  let templateFolderId ← getTemplateFolderId env tempName
  let templateFiles ← getFolderItemsByID env (jsStringOfNull templateFolderId)
  match templateFiles with
  | none => throwErr "TypeError: templateFiles is not iterable"
  | some files => copyLoop env files

/-- `installHelixbot()`: starts the flow without awaiting it; never throws. -/
def installHelixbot : Run Unit := emit (.netCall .botFlowCall)

/-- The body of the `try` block of `oneclicksample(siteName, templateName)`. -/
def coreRun (env : Env) (siteName templateName : String) : Run Unit := do
  sendStatusMessage "Setting Up Git Repo ..." 0
  sendStatusMessage "Setting Up Git Repo ..." 1
  let gitAuthToken ← getGitHubAuthToken env
  let gitAccessToken ← getAccessToken env gitAuthToken
  sendStatusMessage "Setting Up Git Repo ..." 15
  let gitData ← createUserRepo env siteName gitAccessToken
  sendStatusMessage "Git repo successfully created" 33
  sendStatusMessage "Setting up Google Drive folder..." 40
  let googleAccessToken ← getGoogleAccessToken env
  let targetFolderId ← createFolder env siteName googleAccessToken
  sendStatusMessage "Google Drive folder created successfully" 50
  sendStatusMessage "Giving Permission to Google Drive" 53
  createPermission env targetFolderId googleAccessToken
  sendStatusMessage "Giving Permission to Google Drive" 60
  sendStatusMessage "Updating FsTab" 65
  let _ ← editFsTab env (jsStringOfUndefined gitData.url) gitAccessToken targetFolderId
  sendStatusMessage "Adding Templates" 75
  addTemplate env templateName targetFolderId
  sendStatusMessage "Templates Added Templates" 85
  sendStatusMessage "Setup Helix Bot" 90
  installHelixbot
  sendStatusMessage "Helix Bot added successfully" 95
  sendStatusMessage "Project setup completed !" 100
  publish gitData.clone_url

/-- `oneclicksample(siteName, templateName)`: the `try`/`catch` wrapper; a
failure anywhere yields one terminal status message interpolating the caught
error's message at percent 0. -/
def oneclicksample (env : Env) (siteName templateName : String) : List TraceItem :=
  match coreRun env siteName templateName with
  | ⟨t, .ok _⟩ => t
  | ⟨t, .error e⟩ =>
    t ++ [.statusMsg ("Failed to create Franklin Project \n" ++ e.message) 0]

/-! ## Embedding of the `handleGitErrors` revision (`src/unnamed/part_002`)

Only the repository-creation path is needed: `handleGitErrors(response)`
reads the response text, parses it and throws on a non-success status with
the joined `errors` array or the stringified body. -/

namespace P2

/-- Body of the repository-generation response in the part_002 revision:
the optional `errors` array, plus the JSON text that
`JSON.stringify(data)` would yield for it. -/
structure P2Body where
  errors : Option (List String) := none
  raw : String := ""
  deriving DecidableEq

/-- The parsed form of `await response.text()`: an empty body, a body that
is not JSON, or a parsed object. -/
inductive ParsedBody where
  | empty
  | malformed
  | parsed (b : P2Body)
  deriving DecidableEq

/-- A settled fetch `Response` as `handleGitErrors` consumes it: the `ok`
flag and the (already classified) text body. -/
structure GitResp where
  ok : Bool
  body : ParsedBody
  deriving DecidableEq

/-- `Array.prototype.join()` with the default separator. -/
def jsJoin (l : List String) : String := String.intercalate "," l

/-- `handleGitErrors(response)` of part_002: parse failure throws
`Response Body not json : undefined` (the `data` local is still undefined at
the throw); on a non-success status the joined `errors` array or the
stringified body is thrown; an empty body on a non-success status raises a
TypeError reading `data.errors` of `undefined`. -/
def handleGitErrors (r : GitResp) : Except JsError (Option P2Body) :=
  match r.body with
  | .malformed => .error ⟨"Response Body not json : undefined"⟩
  | .empty =>
    if r.ok then .ok none
    else .error ⟨"TypeError: Cannot read properties of undefined (reading 'errors')"⟩
  | .parsed data =>
    if r.ok then .ok (some data)
    else
      .error ⟨match data.errors with
              | some es => jsJoin es
              | none => data.raw⟩

/-- `createUserRepo(repoName, accessToken)` of part_002: the `try` block
covers the fetch and `handleGitErrors`; the `catch` rethrows with the
`Failed to Create Git Repo : ` prefix. -/
def createUserRepo (resp : Except JsError GitResp) : Except JsError (Option P2Body) :=
  match resp.bind handleGitErrors with
  | .error e => .error ⟨"Failed to Create Git Repo : " ++ e.message⟩
  | .ok d => .ok d

end P2

/-! ## Structural trace lemmas -/

theorem netCall_not_event {i : TraceItem} (h : isNetCall i = true) :
    isEvent i = false ∧ isFailureEvent i = false ∧ isPublishEvt i = false ∧
    pctOf i = none := by
  cases i with
  | statusMsg m p => simp [isNetCall] at h
  | publishEvt u => simp [isNetCall] at h
  | netCall c => simp [isEvent, isFailureEvent, isPublishEvt, pctOf]

theorem onlyCalls_eventsOf {l : List TraceItem} (h : onlyCalls l = true) :
    eventsOf l = [] := by
  rw [eventsOf, List.filter_eq_nil_iff]
  intro i hi
  have := (netCall_not_event ((List.all_eq_true.mp h) i hi)).1
  simp [this]

theorem onlyCalls_pctsOf {l : List TraceItem} (h : onlyCalls l = true) :
    pctsOf l = [] := by
  rw [pctsOf, List.filterMap_eq_nil_iff]
  intro i hi
  exact (netCall_not_event ((List.all_eq_true.mp h) i hi)).2.2.2

theorem onlyCalls_countFail {l : List TraceItem} (h : onlyCalls l = true) :
    l.countP isFailureEvent = 0 := by
  rw [List.countP_eq_zero]
  intro i hi
  simp [(netCall_not_event ((List.all_eq_true.mp h) i hi)).2.1]

theorem onlyCalls_noPublish {l : List TraceItem} (h : onlyCalls l = true) :
    l.filter isPublishEvt = [] := by
  rw [List.filter_eq_nil_iff]
  intro i hi
  simp [(netCall_not_event ((List.all_eq_true.mp h) i hi)).2.2.1]

theorem bind_result_ok {α β : Type} (x : Run α) (f : α → Run β) (a : α)
    (hx : x.result = .ok a) : (x >>= f).result = (f a).result := by
  obtain ⟨t, r⟩ := x
  cases r with
  | ok b => simp only [Except.ok.injEq] at hx; subst hx; simp
  | error e => simp at hx

theorem bind_trace_onlyCalls {α β : Type} (x : Run α) (f : α → Run β)
    (hx : onlyCalls x.trace = true) (hf : ∀ a, onlyCalls (f a).trace = true) :
    onlyCalls (x >>= f).trace = true := by
  obtain ⟨t, r⟩ := x
  cases r with
  | ok a => simpa [onlyCalls] using ⟨List.all_eq_true.mp hx, List.all_eq_true.mp (hf a)⟩
  | error e => simpa using hx

theorem getFile_onlyCalls (env : Env) (d t : String) :
    onlyCalls (getFile env d t).trace = true := by
  unfold getFile
  cases h : env.fileExport d <;> simp [h, onlyCalls, isNetCall]

theorem uploadFile_onlyCalls (env : Env) (n t : String) :
    onlyCalls (uploadFile env n t).trace = true := by
  unfold uploadFile
  cases h1 : env.uploadInit n with
  | error e => simp [h1, onlyCalls, isNetCall]
  | ok meta =>
    cases h2 : env.uploadPut n with
    | error e => simp [h1, h2, onlyCalls, isNetCall]
    | ok body =>
      cases h3 : handleErrors body <;> simp [h1, h2, h3, onlyCalls, isNetCall]

theorem copyOne_onlyCalls (env : Env) (f : DriveFile) :
    onlyCalls (copyOne env f).trace = true := by
  unfold copyOne
  split
  · show onlyCalls (detach _).trace = true
    rw [detach]
    exact bind_trace_onlyCalls _ _ (getFile_onlyCalls env f.id _)
      (fun _ => uploadFile_onlyCalls env f.name _)
  · simp [onlyCalls]

theorem copyOne_ok (env : Env) (f : DriveFile) :
    (copyOne env f).result = .ok () := by
  unfold copyOne
  split
  · rfl
  · rfl

theorem copyLoop_onlyCalls (env : Env) (fs : List DriveFile) :
    onlyCalls (copyLoop env fs).trace = true ∧ (copyLoop env fs).result = .ok () := by
  induction fs with
  | nil => simp [copyLoop, onlyCalls]
  | cons f fs ih =>
    have h1 := copyOne_onlyCalls env f
    have h2 := copyOne_ok env f
    constructor
    · show onlyCalls ((copyOne env f >>= fun _ => copyLoop env fs)).trace = true
      exact bind_trace_onlyCalls _ _ h1 (fun _ => ih.1)
    · show ((copyOne env f >>= fun _ => copyLoop env fs)).result = .ok ()
      rw [bind_result_ok _ _ () h2]
      exact ih.2

/-! ## Evaluation lemmas for the success path -/

theorem handleErrors_none {data : Body} (h : data.error = none) :
    handleErrors data = none := by
  unfold handleErrors
  rw [h]

theorem getGitHubAuthToken_ok (env : Env) (r : String)
    (h1 : env.gitAuthRedirect = .ok r)
    (h2 : jsIncludes r "error=access_denied" = false) :
    getGitHubAuthToken env =
      ⟨[.netCall .gitAuthFlow], .ok (jsSubstringFrom r (jsIndexOf r "code=" + 5))⟩ := by
  simp [getGitHubAuthToken, h1, h2]

theorem getAccessToken_ok (env : Env) (tb : String)
    (h : env.gitTokenBody = .ok tb) (tok : String) :
    getAccessToken env tok =
      ⟨[.netCall .gitTokenCall],
        .ok (jsSubstring (jsSubstringFrom tb (jsIndexOf tb "access_token=" + 13)) 0
          (jsIndexOf (jsSubstringFrom tb (jsIndexOf tb "access_token=" + 13)) "&"))⟩ := by
  simp [getAccessToken, h]

theorem createUserRepo_ok (env : Env) (repo : Body)
    (h : env.createRepoBody = .ok repo) (name tok : String) :
    createUserRepo env name tok = ⟨[.netCall (.createRepoCall name)], .ok repo⟩ := by
  simp [createUserRepo, h]

theorem getGoogleAccessToken_resolved (env : Env) (g : String)
    (h : env.googleAuthRedirect = .ok g) :
    ∃ gt : Option String,
      getGoogleAccessToken env = ⟨[.netCall .googleAuthFlow], .ok gt⟩ := by
  by_cases hle : env.googleLastError
  · exact ⟨none, by simp [getGoogleAccessToken, h, hle]⟩
  · by_cases hinc : jsIncludes g "access_denied"
    · exact ⟨none, by simp [getGoogleAccessToken, h, hle, hinc]⟩
    · exact ⟨some (jsSubstring (jsSubstringFrom g (jsIndexOf g "access_token=" + 13)) 0
        (jsIndexOf (jsSubstringFrom g (jsIndexOf g "access_token=" + 13)) "&")),
        by simp [getGoogleAccessToken, h, hle, hinc]⟩

theorem createFolder_ok (env : Env) (fb : Body)
    (h : env.createFolderBody = .ok fb) (he : fb.error = none)
    (name : String) (gt : Option String) :
    createFolder env name gt =
      ⟨[.netCall (.createFolderCall name (jsStringOfNull gt))], .ok fb.id⟩ := by
  simp [createFolder, h, handleErrors_none he]

theorem createPermission_ok (env : Env) (pb : Body)
    (h : env.createPermissionBody = .ok pb) (he : pb.error = none)
    (fid : Option String) (gt : Option String) :
    createPermission env fid gt =
      ⟨[.netCall (.createPermissionCall (jsStringOfUndefined fid) (jsStringOfNull gt))],
        .ok ()⟩ := by
  simp [createPermission, h, handleErrors_none he]

theorem editFsTab_ok (env : Env) (b1 b2 : Body) (cm : CommitInfo) (m : String)
    (fid : Option String) (enc : String)
    (h1 : env.fstabGetBody = .ok b1) (he1 : b1.error = none)
    (hb : btoa (fstabContent (jsStringOfUndefined fid)) = some enc)
    (h2 : env.fstabPutBody = .ok b2) (he2 : b2.error = none)
    (hc : b2.commit = some cm) (hm : cm.message = some m)
    (giturl tok : String) :
    editFsTab env giturl tok fid =
      ⟨[.netCall (.fstabGetCall (giturl ++ "/contents/fstab.yaml")),
        .netCall (.fstabPutCall (giturl ++ "/contents/fstab.yaml") enc)], .ok b2⟩ := by
  simp [editFsTab, h1, handleErrors_none he1, hb, h2, handleErrors_none he2, hc, hm]

theorem getTemplateFolderId_ok (env : Env) (qb : Body) (qfs : List DriveFile)
    (tname : String) (h : env.templateQueryBody = .ok qb) (hf : qb.files = some qfs) :
    getTemplateFolderId env tname =
      ⟨[.netCall (.templateQueryCall tname)],
        .ok ((qfs.find? (fun item => item.name == tname)).map (·.id))⟩ := by
  simp [getTemplateFolderId, h, hf]

theorem getFolderItemsByID_ok (env : Env) (lb : Body) (fid : String)
    (h : env.templateListBody fid = .ok lb) :
    getFolderItemsByID env fid = ⟨[.netCall (.templateListCall fid)], .ok lb.files⟩ := by
  simp [getFolderItemsByID, h]

theorem addTemplate_ok (env : Env) (qb lb : Body) (qfs lfs : List DriveFile)
    (tname : String)
    (hq : env.templateQueryBody = .ok qb) (hqf : qb.files = some qfs)
    (hl : env.templateListBody
      (jsStringOfNull ((qfs.find? (fun item => item.name == tname)).map (·.id))) = .ok lb)
    (hlf : lb.files = some lfs) (target : Option String) :
    addTemplate env tname target =
      ⟨[.netCall (.templateQueryCall tname),
        .netCall (.templateListCall
          (jsStringOfNull ((qfs.find? (fun item => item.name == tname)).map (·.id))))] ++
        (copyLoop env lfs).trace, .ok ()⟩ := by
  have h1 := getTemplateFolderId_ok env qb qfs tname hq hqf
  have h2 := getFolderItemsByID_ok env lb _ hl
  have h3 := (copyLoop_onlyCalls env lfs).2
  simp only [addTemplate, h1, run_bind_ok, h2, hlf]
  simp [h3]

theorem fstabContent_chars (fid : String) (h : ∀ c ∈ fid.data, c.toNat < 256) :
    ∀ c ∈ (fstabContent fid).data, c.toNat < 256 := by
  have hp1 : ∀ c ∈ "mountpoints:\n  /: ".data, c.toNat < 256 := by decide
  have hp2 : ∀ c ∈ "https://drive.google.com/drive/folders/".data, c.toNat < 256 := by decide
  intro c hc
  rw [fstabContent, driveFolderUrl, str_data_append, str_data_append] at hc
  rcases List.mem_append.mp hc with h1 | h2
  · exact hp1 c h1
  · rcases List.mem_append.mp h2 with h3 | h4
    · exact hp2 c h3
    · exact h c h4

/-- The full trace of one successful provisioning run, parameterised over
the values the environment supplies. -/
theorem coreRun_healthy (env : Env) (siteName templateName : String)
    (r tb : String) (repo fb pb b1 b2 qb lb : Body) (cm : CommitInfo) (m : String)
    (qfs lfs : List DriveFile) (gt : Option String) (enc : String)
    (h1 : env.gitAuthRedirect = .ok r)
    (h2 : jsIncludes r "error=access_denied" = false)
    (h3 : env.gitTokenBody = .ok tb)
    (h4 : env.createRepoBody = .ok repo)
    (hg : getGoogleAccessToken env = ⟨[.netCall .googleAuthFlow], .ok gt⟩)
    (h6 : env.createFolderBody = .ok fb) (h7 : fb.error = none)
    (h8 : env.createPermissionBody = .ok pb) (h9 : pb.error = none)
    (h10 : env.fstabGetBody = .ok b1) (h11 : b1.error = none)
    (hb : btoa (fstabContent (jsStringOfUndefined fb.id)) = some enc)
    (h12 : env.fstabPutBody = .ok b2) (h13 : b2.error = none)
    (h14 : b2.commit = some cm) (h15 : cm.message = some m)
    (hq : env.templateQueryBody = .ok qb) (hqf : qb.files = some qfs)
    (hl : env.templateListBody
      (jsStringOfNull ((qfs.find? (fun item => item.name == templateName)).map (·.id))) =
      .ok lb)
    (hlf : lb.files = some lfs) :
    coreRun env siteName templateName =
      ⟨[.statusMsg "Setting Up Git Repo ..." 0,
        .statusMsg "Setting Up Git Repo ..." 1,
        .netCall .gitAuthFlow,
        .netCall .gitTokenCall,
        .statusMsg "Setting Up Git Repo ..." 15,
        .netCall (.createRepoCall siteName),
        .statusMsg "Git repo successfully created" 33,
        .statusMsg "Setting up Google Drive folder..." 40,
        .netCall .googleAuthFlow,
        .netCall (.createFolderCall siteName (jsStringOfNull gt)),
        .statusMsg "Google Drive folder created successfully" 50,
        .statusMsg "Giving Permission to Google Drive" 53,
        .netCall (.createPermissionCall (jsStringOfUndefined fb.id) (jsStringOfNull gt)),
        .statusMsg "Giving Permission to Google Drive" 60,
        .statusMsg "Updating FsTab" 65,
        .netCall (.fstabGetCall (jsStringOfUndefined repo.url ++ "/contents/fstab.yaml")),
        .netCall (.fstabPutCall (jsStringOfUndefined repo.url ++ "/contents/fstab.yaml") enc),
        .statusMsg "Adding Templates" 75,
        .netCall (.templateQueryCall templateName),
        .netCall (.templateListCall
          (jsStringOfNull ((qfs.find? (fun item => item.name == templateName)).map (·.id))))]
        ++ (copyLoop env lfs).trace ++
       [.statusMsg "Templates Added Templates" 85,
        .statusMsg "Setup Helix Bot" 90,
        .netCall .botFlowCall,
        .statusMsg "Helix Bot added successfully" 95,
        .statusMsg "Project setup completed !" 100,
        .publishEvt repo.clone_url], .ok ()⟩ := by
  simp only [coreRun, sendStatusMessage, publish, installHelixbot,
    getGitHubAuthToken_ok env r h1 h2,
    getAccessToken_ok env tb h3,
    createUserRepo_ok env repo h4,
    hg,
    createFolder_ok env fb h6 h7,
    createPermission_ok env pb h8 h9,
    editFsTab_ok env b1 b2 cm m fb.id enc h10 h11 hb h12 h13 h14 h15,
    addTemplate_ok env qb lb qfs lfs templateName hq hqf hl hlf,
    emit_eq, pure_eq, run_bind_ok]
  simp

/-! ## A concrete healthy environment (used by the witnesses) -/

def envOk : Env := {
  gitAuthRedirect := .ok "https://abc.chromiumapp.org/?code=authcode123&state=1",
  gitTokenBody := .ok "access_token=gitAT99&scope=repo,gist",
  createRepoStatus := 201,
  createRepoBody := .ok { url := some "https://api.github.com/repos/me/site",
                          clone_url := some "https://github.com/me/site.git" },
  googleLastError := false,
  googleAuthRedirect := .ok "https://abc.chromiumapp.org/#access_token=gAT7&expires_in=3599",
  createFolderStatus := 200,
  createFolderBody := .ok { id := some "fold1" },
  createPermissionBody := .ok {},
  fstabGetBody := .ok { sha := some "sha1" },
  fstabPutBody := .ok { commit := some { message := some "updated FsTab.Yaml" } },
  templateQueryBody := .ok
    { files := some [⟨"tf1", "mytmpl", "application/vnd.google-apps.folder"⟩] },
  templateListBody := fun _ => .ok
    { files := some [⟨"d1", "index", "application/vnd.google-apps.document"⟩] },
  fileExport := fun _ => .ok (),
  uploadInit := fun _ => .ok { location := some "https://upload.example/loc1" },
  uploadPut := fun _ => .ok {} }

/-! ## Claim C1 -/

/-- C1: in every run of `oneclicksample` in which every stage succeeds (all
external interactions resolve as hypothesised below), the sequence of
`percentCompletion` values emitted via `sendStatusMessage` is
non-decreasing, its last element is `100`, and the publish event carrying
the repository clone URL is emitted after all of them (it is the final
status-or-publish event of the trace). -/
theorem c1_success_progress (env : Env) (siteName templateName : String)
    (r tb g : String) (repo fb pb b1 b2 qb lb : Body) (cm : CommitInfo) (m : String)
    (qfs lfs : List DriveFile)
    (h1 : env.gitAuthRedirect = .ok r)
    (h2 : jsIncludes r "error=access_denied" = false)
    (h3 : env.gitTokenBody = .ok tb)
    (h4 : env.createRepoBody = .ok repo)
    (h5 : env.googleAuthRedirect = .ok g)
    (h6 : env.createFolderBody = .ok fb) (h7 : fb.error = none)
    (hchars : ∀ c ∈ (jsStringOfUndefined fb.id).data, c.toNat < 256)
    (h8 : env.createPermissionBody = .ok pb) (h9 : pb.error = none)
    (h10 : env.fstabGetBody = .ok b1) (h11 : b1.error = none)
    (h12 : env.fstabPutBody = .ok b2) (h13 : b2.error = none)
    (h14 : b2.commit = some cm) (h15 : cm.message = some m)
    (hq : env.templateQueryBody = .ok qb) (hqf : qb.files = some qfs)
    (hl : env.templateListBody
      (jsStringOfNull ((qfs.find? (fun item => item.name == templateName)).map (·.id))) =
      .ok lb)
    (hlf : lb.files = some lfs) :
    List.Chain' (· ≤ ·) (pctsOf (oneclicksample env siteName templateName)) ∧
    (pctsOf (oneclicksample env siteName templateName)).getLast? = some 100 ∧
    (eventsOf (oneclicksample env siteName templateName)).getLast? =
      some (.publishEvt repo.clone_url) := by
  obtain ⟨gt, hg⟩ := getGoogleAccessToken_resolved env g h5
  obtain ⟨enc, hb, -⟩ := atob_btoa _ (fstabContent_chars _ hchars)
  have hcore := coreRun_healthy env siteName templateName r tb repo fb pb b1 b2 qb lb cm m
    qfs lfs gt enc h1 h2 h3 h4 hg h6 h7 h8 h9 h10 h11 hb h12 h13 h14 h15 hq hqf hl hlf
  have honce : oneclicksample env siteName templateName =
      (coreRun env siteName templateName).trace := by
    rw [oneclicksample, hcore]
  rw [hcore] at honce
  have hLp : List.filterMap pctOf (copyLoop env lfs).trace = [] :=
    onlyCalls_pctsOf (copyLoop_onlyCalls env lfs).1
  have hLe : List.filter isEvent (copyLoop env lfs).trace = [] :=
    onlyCalls_eventsOf (copyLoop_onlyCalls env lfs).1
  have hpcts : pctsOf (oneclicksample env siteName templateName) =
      [0, 1, 15, 33, 40, 50, 53, 60, 65, 75, 85, 90, 95, 100] := by
    rw [honce, pctsOf, List.filterMap_append, List.filterMap_append, hLp]
    simp [pctOf]
  refine ⟨by rw [hpcts]; simp [List.chain'_cons], by rw [hpcts]; rfl, ?_⟩
  have hev : eventsOf (oneclicksample env siteName templateName) =
      [.statusMsg "Setting Up Git Repo ..." 0,
       .statusMsg "Setting Up Git Repo ..." 1,
       .statusMsg "Setting Up Git Repo ..." 15,
       .statusMsg "Git repo successfully created" 33,
       .statusMsg "Setting up Google Drive folder..." 40,
       .statusMsg "Google Drive folder created successfully" 50,
       .statusMsg "Giving Permission to Google Drive" 53,
       .statusMsg "Giving Permission to Google Drive" 60,
       .statusMsg "Updating FsTab" 65,
       .statusMsg "Adding Templates" 75,
       .statusMsg "Templates Added Templates" 85,
       .statusMsg "Setup Helix Bot" 90,
       .statusMsg "Helix Bot added successfully" 95,
       .statusMsg "Project setup completed !" 100,
       .publishEvt repo.clone_url] := by
    rw [honce, eventsOf, List.filter_append, List.filter_append, hLe]
    simp [isEvent]
  rw [hev]
  rfl

/-- Witness for C1 at the concrete healthy environment `envOk`. -/
theorem c1_success_progress_witness :
    List.Chain' (· ≤ ·) (pctsOf (oneclicksample envOk "mysite" "mytmpl")) ∧
    (pctsOf (oneclicksample envOk "mysite" "mytmpl")).getLast? = some 100 ∧
    (eventsOf (oneclicksample envOk "mysite" "mytmpl")).getLast? =
      some (.publishEvt (some "https://github.com/me/site.git")) :=
  c1_success_progress envOk "mysite" "mytmpl"
    "https://abc.chromiumapp.org/?code=authcode123&state=1"
    "access_token=gitAT99&scope=repo,gist"
    "https://abc.chromiumapp.org/#access_token=gAT7&expires_in=3599"
    { url := some "https://api.github.com/repos/me/site",
      clone_url := some "https://github.com/me/site.git" }
    { id := some "fold1" } {} { sha := some "sha1" }
    { commit := some { message := some "updated FsTab.Yaml" } }
    { files := some [⟨"tf1", "mytmpl", "application/vnd.google-apps.folder"⟩] }
    { files := some [⟨"d1", "index", "application/vnd.google-apps.document"⟩] }
    { message := some "updated FsTab.Yaml" } "updated FsTab.Yaml"
    [⟨"tf1", "mytmpl", "application/vnd.google-apps.folder"⟩]
    [⟨"d1", "index", "application/vnd.google-apps.document"⟩]
    rfl (by decide) rfl rfl rfl rfl rfl (by decide) rfl rfl rfl rfl rfl rfl
    rfl rfl rfl rfl rfl rfl

/-! ## Every helper emits network calls only (statuses and the publish
event are emitted by the orchestrator alone) -/

@[simp] theorem liftEx_trace {α : Type} (x : Except JsError α) : (liftEx x).trace = [] := rfl

theorem onlyCalls_nil : onlyCalls [] = true := rfl

theorem onlyCalls_single (c : NetCall) : onlyCalls [.netCall c] = true := rfl

theorem getGitHubAuthToken_onlyCalls (env : Env) :
    onlyCalls (getGitHubAuthToken env).trace = true := by
  unfold getGitHubAuthToken
  apply bind_trace_onlyCalls
  · exact onlyCalls_single _
  · intro _
    apply bind_trace_onlyCalls
    · rfl
    · intro r
      split <;> rfl

theorem getAccessToken_onlyCalls (env : Env) (tok : String) :
    onlyCalls (getAccessToken env tok).trace = true := by
  unfold getAccessToken
  apply bind_trace_onlyCalls
  · exact onlyCalls_single _
  · intro _
    apply bind_trace_onlyCalls
    · rfl
    · intro _; rfl

theorem createUserRepo_onlyCalls (env : Env) (name tok : String) :
    onlyCalls (createUserRepo env name tok).trace = true := by
  unfold createUserRepo
  apply bind_trace_onlyCalls
  · exact onlyCalls_single _
  · intro _
    rfl

theorem getGoogleAccessToken_onlyCalls (env : Env) :
    onlyCalls (getGoogleAccessToken env).trace = true := by
  unfold getGoogleAccessToken
  apply bind_trace_onlyCalls
  · exact onlyCalls_single _
  · intro _
    apply bind_trace_onlyCalls
    · rfl
    · intro r
      split <;> first | rfl | (split <;> rfl)

theorem createFolder_onlyCalls (env : Env) (name : String) (gt : Option String) :
    onlyCalls (createFolder env name gt).trace = true := by
  unfold createFolder
  apply bind_trace_onlyCalls
  · exact onlyCalls_single _
  · intro _
    apply bind_trace_onlyCalls
    · rfl
    · intro data
      split <;> rfl

theorem createPermission_onlyCalls (env : Env) (fid gt : Option String) :
    onlyCalls (createPermission env fid gt).trace = true := by
  unfold createPermission
  apply bind_trace_onlyCalls
  · exact onlyCalls_single _
  · intro _
    apply bind_trace_onlyCalls
    · rfl
    · intro data
      split <;> rfl

theorem editFsTab_onlyCalls (env : Env) (giturl tok : String) (fid : Option String) :
    onlyCalls (editFsTab env giturl tok fid).trace = true := by
  unfold editFsTab
  apply bind_trace_onlyCalls
  · exact onlyCalls_single _
  · intro _
    apply bind_trace_onlyCalls
    · rfl
    · intro data1
      split
      · rfl
      · split
        · rfl
        · apply bind_trace_onlyCalls
          · exact onlyCalls_single _
          · intro _
            apply bind_trace_onlyCalls
            · rfl
            · intro data
              split
              · rfl
              · split
                · rfl
                · split <;> rfl

theorem getTemplateFolderId_onlyCalls (env : Env) (tname : String) :
    onlyCalls (getTemplateFolderId env tname).trace = true := by
  unfold getTemplateFolderId
  apply bind_trace_onlyCalls
  · exact onlyCalls_single _
  · intro _
    apply bind_trace_onlyCalls
    · rfl
    · intro data
      split <;> rfl

theorem getFolderItemsByID_onlyCalls (env : Env) (fid : String) :
    onlyCalls (getFolderItemsByID env fid).trace = true := by
  unfold getFolderItemsByID
  apply bind_trace_onlyCalls
  · exact onlyCalls_single _
  · intro _
    apply bind_trace_onlyCalls
    · rfl
    · intro _; rfl

theorem addTemplate_onlyCalls (env : Env) (tname : String) (target : Option String) :
    onlyCalls (addTemplate env tname target).trace = true := by
  unfold addTemplate
  apply bind_trace_onlyCalls
  · exact getTemplateFolderId_onlyCalls env tname
  · intro tfid
    apply bind_trace_onlyCalls
    · exact getFolderItemsByID_onlyCalls env _
    · intro files
      split
      · rfl
      · exact (copyLoop_onlyCalls env _).1

/-! ## Claim C2 -/

/-- C2: in every run in which the GitHub authorization flow resolved without
denial but the source-control token exchange (`getAccessToken`'s fetch of
the `access_token` endpoint) fails, no storage-side network call is ever
made: the Google authorization flow, `createFolder`, `createPermission` and
all template-copy calls are absent from the trace. -/
theorem c2_token_failure_no_storage (env : Env) (siteName templateName : String)
    (r : String) (e : JsError)
    (h1 : env.gitAuthRedirect = .ok r)
    (h2 : jsIncludes r "error=access_denied" = false)
    (h3 : env.gitTokenBody = .error e) :
    (oneclicksample env siteName templateName).filter isStorageCall = [] := by
  have hat : ∀ tok, getAccessToken env tok = ⟨[.netCall .gitTokenCall], .error e⟩ := by
    intro tok
    simp [getAccessToken, h3]
  have hcore : coreRun env siteName templateName =
      ⟨[.statusMsg "Setting Up Git Repo ..." 0,
        .statusMsg "Setting Up Git Repo ..." 1,
        .netCall .gitAuthFlow,
        .netCall .gitTokenCall], .error e⟩ := by
    simp only [coreRun, sendStatusMessage, getGitHubAuthToken_ok env r h1 h2, hat,
      emit_eq, run_bind_ok, run_bind_error]
    simp
  simp only [oneclicksample, hcore]
  simp [isStorageCall]

/-- The healthy environment with the token-exchange fetch rejected. -/
def envTokenFail : Env := { envOk with gitTokenBody := .error ⟨"network down"⟩ }

/-- Witness for C2: the concrete failing-exchange environment. -/
theorem c2_token_failure_no_storage_witness :
    (oneclicksample envTokenFail "mysite" "mytmpl").filter isStorageCall = [] :=
  c2_token_failure_no_storage envTokenFail "mysite" "mytmpl"
    "https://abc.chromiumapp.org/?code=authcode123&state=1" ⟨"network down"⟩
    rfl (by decide) rfl

/-! ## Classification of `coreRun` traces (for claim C3) -/

@[simp] theorem isFailureEvent_netCall (c : NetCall) : isFailureEvent (.netCall c) = false := rfl

@[simp] theorem isFailureEvent_publishEvt (u : Option String) :
    isFailureEvent (.publishEvt u) = false := rfl

@[simp] theorem isPublishEvt_netCall (c : NetCall) : isPublishEvt (.netCall c) = false := rfl

@[simp] theorem isPublishEvt_statusMsg (m : String) (p : Nat) :
    isPublishEvt (.statusMsg m p) = false := rfl

@[simp] theorem isPublishEvt_publishEvt (u : Option String) :
    isPublishEvt (.publishEvt u) = true := rfl

/-- In every run, the `try`-block trace contains no failure-styled status
message, and it contains a publish event only when the whole block
succeeded. -/
theorem coreRun_trace_classify (env : Env) (s t : String) :
    (coreRun env s t).trace.countP isFailureEvent = 0 ∧
    ((coreRun env s t).trace.filter isPublishEvt = [] ∨
      (coreRun env s t).result = .ok ()) := by
  simp only [coreRun, sendStatusMessage, publish, installHelixbot, emit_eq]
  have oA := getGitHubAuthToken_onlyCalls env
  rcases hA : getGitHubAuthToken env with ⟨tA, eA | aA⟩ <;> rw [hA] at oA <;>
    simp only [run_bind_ok, run_bind_error]
  · refine ⟨?_, Or.inl ?_⟩
    · simp only [List.countP_append, onlyCalls_countFail oA]
      decide
    · simp [List.filter_append, onlyCalls_noPublish oA]
  have oB := getAccessToken_onlyCalls env aA
  rcases hB : getAccessToken env aA with ⟨tB, eB | aB⟩ <;> rw [hB] at oB <;>
    simp only [run_bind_ok, run_bind_error]
  · refine ⟨?_, Or.inl ?_⟩
    · simp only [List.countP_append, onlyCalls_countFail oA, onlyCalls_countFail oB]
      decide
    · simp [List.filter_append, onlyCalls_noPublish oA, onlyCalls_noPublish oB]
  have oC := createUserRepo_onlyCalls env s aB
  rcases hC : createUserRepo env s aB with ⟨tC, eC | aC⟩ <;> rw [hC] at oC <;>
    simp only [run_bind_ok, run_bind_error]
  · refine ⟨?_, Or.inl ?_⟩
    · simp only [List.countP_append, onlyCalls_countFail oA, onlyCalls_countFail oB,
        onlyCalls_countFail oC]
      decide
    · simp [List.filter_append, onlyCalls_noPublish oA, onlyCalls_noPublish oB,
        onlyCalls_noPublish oC]
  have oD := getGoogleAccessToken_onlyCalls env
  rcases hD : getGoogleAccessToken env with ⟨tD, eD | aD⟩ <;> rw [hD] at oD <;>
    simp only [run_bind_ok, run_bind_error]
  · refine ⟨?_, Or.inl ?_⟩
    · simp only [List.countP_append, onlyCalls_countFail oA, onlyCalls_countFail oB,
        onlyCalls_countFail oC, onlyCalls_countFail oD]
      decide
    · simp [List.filter_append, onlyCalls_noPublish oA, onlyCalls_noPublish oB,
        onlyCalls_noPublish oC, onlyCalls_noPublish oD]
  have oE := createFolder_onlyCalls env s aD
  rcases hE : createFolder env s aD with ⟨tE, eE | aE⟩ <;> rw [hE] at oE <;>
    simp only [run_bind_ok, run_bind_error]
  · refine ⟨?_, Or.inl ?_⟩
    · simp only [List.countP_append, onlyCalls_countFail oA, onlyCalls_countFail oB,
        onlyCalls_countFail oC, onlyCalls_countFail oD, onlyCalls_countFail oE]
      decide
    · simp [List.filter_append, onlyCalls_noPublish oA, onlyCalls_noPublish oB,
        onlyCalls_noPublish oC, onlyCalls_noPublish oD, onlyCalls_noPublish oE]
  have oF := createPermission_onlyCalls env aE aD
  rcases hF : createPermission env aE aD with ⟨tF, eF | aF⟩ <;> rw [hF] at oF <;>
    simp only [run_bind_ok, run_bind_error]
  · refine ⟨?_, Or.inl ?_⟩
    · simp only [List.countP_append, onlyCalls_countFail oA, onlyCalls_countFail oB,
        onlyCalls_countFail oC, onlyCalls_countFail oD, onlyCalls_countFail oE,
        onlyCalls_countFail oF]
      decide
    · simp [List.filter_append, onlyCalls_noPublish oA, onlyCalls_noPublish oB,
        onlyCalls_noPublish oC, onlyCalls_noPublish oD, onlyCalls_noPublish oE,
        onlyCalls_noPublish oF]
  have oG := editFsTab_onlyCalls env (jsStringOfUndefined aC.url) aB aE
  rcases hG : editFsTab env (jsStringOfUndefined aC.url) aB aE with ⟨tG, eG | aG⟩ <;>
    rw [hG] at oG <;> simp only [run_bind_ok, run_bind_error]
  · refine ⟨?_, Or.inl ?_⟩
    · simp only [List.countP_append, onlyCalls_countFail oA, onlyCalls_countFail oB,
        onlyCalls_countFail oC, onlyCalls_countFail oD, onlyCalls_countFail oE,
        onlyCalls_countFail oF, onlyCalls_countFail oG]
      decide
    · simp [List.filter_append, onlyCalls_noPublish oA, onlyCalls_noPublish oB,
        onlyCalls_noPublish oC, onlyCalls_noPublish oD, onlyCalls_noPublish oE,
        onlyCalls_noPublish oF, onlyCalls_noPublish oG]
  have oH := addTemplate_onlyCalls env t aE
  rcases hH : addTemplate env t aE with ⟨tH, eH | aH⟩ <;> rw [hH] at oH <;>
    simp only [run_bind_ok, run_bind_error]
  · refine ⟨?_, Or.inl ?_⟩
    · simp only [List.countP_append, onlyCalls_countFail oA, onlyCalls_countFail oB,
        onlyCalls_countFail oC, onlyCalls_countFail oD, onlyCalls_countFail oE,
        onlyCalls_countFail oF, onlyCalls_countFail oG, onlyCalls_countFail oH]
      decide
    · simp [List.filter_append, onlyCalls_noPublish oA, onlyCalls_noPublish oB,
        onlyCalls_noPublish oC, onlyCalls_noPublish oD, onlyCalls_noPublish oE,
        onlyCalls_noPublish oF, onlyCalls_noPublish oG, onlyCalls_noPublish oH]
  refine ⟨?_, Or.inr trivial⟩
  simp only [List.countP_append, onlyCalls_countFail oA, onlyCalls_countFail oB,
    onlyCalls_countFail oC, onlyCalls_countFail oD, onlyCalls_countFail oE,
    onlyCalls_countFail oF, onlyCalls_countFail oG, onlyCalls_countFail oH]
  have hpub : List.countP isFailureEvent [TraceItem.publishEvt aC.clone_url] = 0 := rfl
  rw [hpub]
  decide

/-! ## Claim C3 -/

/-- C3: in every run in which some stage raises an error (the `try` block's
result is that error), exactly one terminal failure ProgressEvent is
emitted, its message extends the causing error's message, it is the last
item of the whole trace (no later stage executes and no call — in
particular no delete or modify of a created resource — follows it), and no
publish event is emitted. -/
theorem c3_failure_terminal (env : Env) (siteName templateName : String) (e : JsError)
    (h : (coreRun env siteName templateName).result = .error e) :
    oneclicksample env siteName templateName =
      (coreRun env siteName templateName).trace ++
        [.statusMsg ("Failed to create Franklin Project \n" ++ e.message) 0] ∧
    (oneclicksample env siteName templateName).countP isFailureEvent = 1 ∧
    (oneclicksample env siteName templateName).filter isPublishEvt = [] ∧
    (oneclicksample env siteName templateName).getLast? =
      some (.statusMsg ("Failed to create Franklin Project \n" ++ e.message) 0) ∧
    (∃ pre, "Failed to create Franklin Project \n" ++ e.message = pre ++ e.message) := by
  have hclass := coreRun_trace_classify env siteName templateName
  rcases hcr : coreRun env siteName templateName with ⟨tr, r⟩
  rw [hcr] at h hclass
  simp only at h hclass
  subst h
  have hcount : tr.countP isFailureEvent = 0 := hclass.1
  have hnopub : tr.filter isPublishEvt = [] := by
    rcases hclass.2 with hf | hok
    · exact hf
    · exact absurd hok (by simp)
  have hone : oneclicksample env siteName templateName =
      tr ++ [.statusMsg ("Failed to create Franklin Project \n" ++ e.message) 0] := by
    rw [oneclicksample, hcr]
  have habc : ("Failed to create Franklin Project" : String) ++ " \n" =
      "Failed to create Franklin Project \n" := by decide
  have hsplit : ("Failed to create Franklin Project \n" ++ e.message).data =
      ("Failed to create Franklin Project").data ++ (" \n" ++ e.message).data := by
    rw [← habc, String.append_assoc]
    exact str_data_append _ _
  have hfail : isFailureEvent
      (.statusMsg ("Failed to create Franklin Project \n" ++ e.message) 0) = true := by
    show listPrefixB ("Failed to create Franklin Project").data
      ("Failed to create Franklin Project \n" ++ e.message).data = true
    rw [hsplit]
    exact listPrefixB_self_append _ _
  refine ⟨hone, ?_, ?_, ?_, ⟨"Failed to create Franklin Project \n", rfl⟩⟩
  · rw [hone, List.countP_append, hcount]
    simp [List.countP_cons, hfail]
  · rw [hone, List.filter_append, hnopub]
    simp
  · rw [hone]
    exact List.getLast?_concat _

/-- Witness for C3 at the failing-token-exchange environment. -/
theorem c3_failure_terminal_witness :
    oneclicksample envTokenFail "mysite" "mytmpl" =
      (coreRun envTokenFail "mysite" "mytmpl").trace ++
        [.statusMsg ("Failed to create Franklin Project \n" ++ (⟨"network down"⟩ : JsError).message) 0] ∧
    (oneclicksample envTokenFail "mysite" "mytmpl").countP isFailureEvent = 1 ∧
    (oneclicksample envTokenFail "mysite" "mytmpl").filter isPublishEvt = [] ∧
    (oneclicksample envTokenFail "mysite" "mytmpl").getLast? =
      some (.statusMsg ("Failed to create Franklin Project \n" ++
        (⟨"network down"⟩ : JsError).message) 0) ∧
    (∃ pre, "Failed to create Franklin Project \n" ++ (⟨"network down"⟩ : JsError).message =
      pre ++ (⟨"network down"⟩ : JsError).message) :=
  c3_failure_terminal envTokenFail "mysite" "mytmpl" ⟨"network down"⟩ rfl

/-! ## Claim C4 -/

/-- Environment whose repository-creation response has HTTP status 422 and a
body carrying an `errors` array. -/
def envRepoErrors : Env :=
  { envOk with
    createRepoStatus := 422,
    createRepoBody := .ok { errors := some ["name already exists"] } }

/-- C4 counterexample: the main extension's `createUserRepo` returns
normally (`.ok` with the parsed body) although the HTTP status is 422 and
the body carries an `errors` array — it does not fail at all. -/
theorem c4_counterexample :
    envRepoErrors.createRepoStatus = 422 ∧
    (Body.errors { errors := some ["name already exists"] } = some ["name already exists"]) ∧
    (createUserRepo envRepoErrors "mysite" "tok").result =
      .ok { errors := some ["name already exists"] } :=
  ⟨rfl, rfl, rfl⟩

/-- C4 amended: the main revision's `createUserRepo` performs no error
handling at all — it returns the parsed body for any status; only the
part_002 revision fails, and it does so exactly on a non-success HTTP
status, with `Failed to Create Git Repo : ` followed by the joined `errors`
array (or the stringified body); an `errors` array in a success-status body
does not cause a failure. -/
theorem c4_amended :
    (∀ (resp : P2.GitResp) (data : P2.P2Body), resp.ok = false → resp.body = .parsed data →
      P2.createUserRepo (.ok resp) =
        .error ⟨"Failed to Create Git Repo : " ++
          (match data.errors with
           | some es => P2.jsJoin es
           | none => data.raw)⟩) ∧
    (∀ (resp : P2.GitResp) (data : P2.P2Body), resp.ok = true → resp.body = .parsed data →
      P2.createUserRepo (.ok resp) = .ok (some data)) ∧
    (∀ (env : Env) (body : Body) (name tok : String), env.createRepoBody = .ok body →
      (createUserRepo env name tok).result = .ok body) := by
  refine ⟨?_, ?_, ?_⟩
  · intro resp data hok hb
    rcases hde : data.errors with _ | es <;>
      simp_all [P2.createUserRepo, P2.handleGitErrors, Except.bind]
  · intro resp data hok hb
    simp [P2.createUserRepo, P2.handleGitErrors, hb, hok, Except.bind]
  · intro env body name tok h
    simp [createUserRepo, h]

/-- Witness for C4's amended statement at concrete responses. -/
theorem c4_amended_witness :
    P2.createUserRepo (.ok ⟨false, .parsed ⟨some ["repo exists"], "{}"⟩⟩) =
      .error ⟨"Failed to Create Git Repo : " ++ P2.jsJoin ["repo exists"]⟩ ∧
    P2.createUserRepo (.ok ⟨true, .parsed ⟨some ["repo exists"], "{}"⟩⟩) =
      .ok (some ⟨some ["repo exists"], "{}"⟩) ∧
    (createUserRepo envOk "mysite" "tok").result =
      .ok { url := some "https://api.github.com/repos/me/site",
            clone_url := some "https://github.com/me/site.git" } :=
  ⟨c4_amended.1 ⟨false, .parsed ⟨some ["repo exists"], "{}"⟩⟩ ⟨some ["repo exists"], "{}"⟩
      rfl rfl,
   c4_amended.2.1 ⟨true, .parsed ⟨some ["repo exists"], "{}"⟩⟩ ⟨some ["repo exists"], "{}"⟩
      rfl rfl,
   c4_amended.2.2 envOk _ "mysite" "tok" rfl⟩

/-! ## Claim C5 -/

/-- Healthy environment except that the storage OAuth redirect carries the
access-denied marker. -/
def envGoogleDenied : Env :=
  { envOk with googleAuthRedirect := .ok "https://abc.chromiumapp.org/#error=access_denied" }

/-- Healthy environment except that the source-control OAuth redirect
carries the access-denied marker. -/
def envGitDenied : Env :=
  { envOk with gitAuthRedirect := .ok "https://abc.chromiumapp.org/?error=access_denied" }

/-- C5 (code bug, evaluated at the failing input): on an `access_denied`
storage redirect, `getGoogleAccessToken` returns `null` instead of failing
(its failure branches are commented out), and the run then continues and
performs the storage-side folder-creation call with the literal token
`"null"`; the source-control side, by contrast, does throw on denial. -/
theorem c5_google_denied_returns_null :
    getGoogleAccessToken envGoogleDenied = ⟨[.netCall .googleAuthFlow], .ok none⟩ ∧
    TraceItem.netCall (.createFolderCall "mysite" "null") ∈
      oneclicksample envGoogleDenied "mysite" "mytmpl" ∧
    (getGitHubAuthToken envGitDenied).result =
      .error ⟨"Failed to Authorize Git :  Access denied !"⟩ :=
  ⟨rfl, by decide, rfl⟩

/-! ## Claim C6 -/

/-- C6 counterexample: for `error.message = "User message: rate limit
exceeded"` the code surfaces the substring starting 14 characters after the
start of the marker (`"rate limit exceeded"`), not the substring starting
immediately after the marker's 12 characters (`": rate limit exceeded"`). -/
theorem c6_counterexample :
    handleErrors { error := some { message := some "User message: rate limit exceeded" } } =
      some (.s "rate limit exceeded") ∧
    jsSubstringFrom "User message: rate limit exceeded"
      (jsIndexOf "User message: rate limit exceeded" "User message" + 12) =
      ": rate limit exceeded" ∧
    ("rate limit exceeded" : String) ≠ ": rate limit exceeded" := by
  refine ⟨by decide, by decide, by decide⟩

/-- C6 amended: when the message contains the marker, the surfaced text is
the substring starting `indexOf("User message") + 14` — two characters past
the end of the 12-character marker; a non-empty message without the marker
is surfaced whole; an `error` whose `message` is absent or the empty string
(both falsy in `if (data.error.message)`) surfaces the parsed body object;
no `error` field surfaces nothing. -/
theorem c6_amended (data : Body) (err : ErrorInfo) (msg : String) :
    (data.error = some err → err.message = some msg →
      jsIncludes msg "User message" = true →
      handleErrors data =
        some (.s (jsSubstringFrom msg (jsIndexOf msg "User message" + 14)))) ∧
    (data.error = some err → err.message = some msg → msg ≠ "" →
      jsIncludes msg "User message" = false →
      handleErrors data = some (.s msg)) ∧
    (data.error = some err → err.message = some "" →
      handleErrors data = some (.obj data)) ∧
    (data.error = some err → err.message = none → handleErrors data = some (.obj data)) ∧
    (data.error = none → handleErrors data = none) := by
  refine ⟨?_, ?_, ?_, ?_, ?_⟩
  · intro h1 h2 h3
    have hne : ¬msg = "" := by
      intro h0
      rw [h0] at h3
      exact absurd h3 (by decide)
    simp [handleErrors, h1, h2, hne, h3]
  · intro h1 h2 hne h3
    simp [handleErrors, h1, h2, hne, h3]
  · intro h1 h2
    simp [handleErrors, h1, h2]
  · intro h1 h2
    simp [handleErrors, h1, h2]
  · intro h1
    simp [handleErrors, h1]

/-- Witness for C6's amended statement at concrete bodies. -/
theorem c6_amended_witness :
    handleErrors { error := some { message := some "User message: rate limit exceeded" } } =
      some (.s (jsSubstringFrom "User message: rate limit exceeded"
        (jsIndexOf "User message: rate limit exceeded" "User message" + 14))) ∧
    handleErrors { error := some { message := some "plain failure" } } =
      some (.s "plain failure") ∧
    handleErrors { error := some { message := some "" } } =
      some (.obj { error := some { message := some "" } }) ∧
    handleErrors { error := some { message := none } } =
      some (.obj { error := some { message := none } }) ∧
    handleErrors ({} : Body) = none :=
  ⟨(c6_amended { error := some { message := some "User message: rate limit exceeded" } }
      { message := some "User message: rate limit exceeded" }
      "User message: rate limit exceeded").1 rfl rfl (by decide),
   (c6_amended { error := some { message := some "plain failure" } }
      { message := some "plain failure" } "plain failure").2.1 rfl rfl (by decide) (by decide),
   (c6_amended { error := some { message := some "" } }
      { message := some "" } "x").2.2.1 rfl rfl,
   (c6_amended { error := some { message := none } } { message := none } "x").2.2.2.1 rfl rfl,
   (c6_amended {} { message := none } "x").2.2.2.2 rfl⟩

/-! ## Claim C7 -/

/-- When the GET of `fstab.yaml` succeeds with a clean body and the content
encodes, `editFsTab`'s trace is exactly the GET followed by the PUT of the
encoded content (whatever the PUT's outcome). -/
theorem editFsTab_trace (env : Env) (b1 : Body) (giturl tok : String)
    (fid : Option String) (enc : String)
    (hget : env.fstabGetBody = .ok b1) (herr : b1.error = none)
    (he : btoa (fstabContent (jsStringOfUndefined fid)) = some enc) :
    (editFsTab env giturl tok fid).trace =
      [.netCall (.fstabGetCall (giturl ++ "/contents/fstab.yaml")),
       .netCall (.fstabPutCall (giturl ++ "/contents/fstab.yaml") enc)] := by
  simp only [editFsTab, hget, handleErrors_none herr, he, emit_eq, liftEx_ok, run_bind_ok]
  rcases hput : env.fstabPutBody with e | b2
  · simp [hput]
  · simp only [hput, liftEx_ok, run_bind_ok]
    rcases hhe : handleErrors b2 with _ | v
    · rcases hc : b2.commit with _ | cm
      · simp [hhe, hc]
      · rcases hm : cm.message with _ | mm <;> simp [hhe, hc, hm]
    · simp [hhe]

/-- C7: the mount-configuration content constructed by `editFsTab` is the
two-line YAML text `mountpoints:` newline two-spaces `/: <drive folder URL
for the folderId>`, and the base64-encoded form that is PUT to the
repository decodes back to exactly that string. -/
theorem c7_fstab_content_roundtrip (env : Env) (b1 : Body) (giturl tok : String)
    (folderId : Option String)
    (hget : env.fstabGetBody = .ok b1) (herr : b1.error = none)
    (hchars : ∀ c ∈ (jsStringOfUndefined folderId).data, c.toNat < 256) :
    fstabContent (jsStringOfUndefined folderId) =
      "mountpoints:\n  /: https://drive.google.com/drive/folders/" ++
        jsStringOfUndefined folderId ∧
    ∃ enc, btoa (fstabContent (jsStringOfUndefined folderId)) = some enc ∧
      atob enc = fstabContent (jsStringOfUndefined folderId) ∧
      TraceItem.netCall (.fstabPutCall (giturl ++ "/contents/fstab.yaml") enc) ∈
        (editFsTab env giturl tok folderId).trace := by
  constructor
  · rw [fstabContent, driveFolderUrl, ← String.append_assoc]
    rw [show ("mountpoints:\n  /: " : String) ++ "https://drive.google.com/drive/folders/" =
      "mountpoints:\n  /: https://drive.google.com/drive/folders/" from by decide]
  · obtain ⟨enc, he, hd⟩ := atob_btoa _ (fstabContent_chars _ hchars)
    refine ⟨enc, he, hd, ?_⟩
    rw [editFsTab_trace env b1 giturl tok folderId enc hget herr he]
    simp

/-- Witness for C7 at the healthy environment and folder id `fold1`. -/
theorem c7_fstab_content_roundtrip_witness :
    fstabContent (jsStringOfUndefined (some "fold1")) =
      "mountpoints:\n  /: https://drive.google.com/drive/folders/" ++
        jsStringOfUndefined (some "fold1") ∧
    ∃ enc, btoa (fstabContent (jsStringOfUndefined (some "fold1"))) = some enc ∧
      atob enc = fstabContent (jsStringOfUndefined (some "fold1")) ∧
      TraceItem.netCall
          (.fstabPutCall ("https://api.github.com/repos/me/site" ++ "/contents/fstab.yaml") enc) ∈
        (editFsTab envOk "https://api.github.com/repos/me/site" "gitAT99" (some "fold1")).trace :=
  c7_fstab_content_roundtrip envOk { sha := some "sha1" }
    "https://api.github.com/repos/me/site" "gitAT99" (some "fold1") rfl rfl (by decide)

/-! ## Claim C8 -/

def isExportCall : TraceItem → Bool
  | .netCall (.fileExportCall _ _) => true
  | _ => false

def isUploadInitCall : TraceItem → Bool
  | .netCall (.uploadInitCall _ _) => true
  | _ => false

def isUploadPutCall : TraceItem → Bool
  | .netCall (.uploadPutCall _) => true
  | _ => false

/-- A copy-related network call addressed at the given file (export by
document id, upload initiation by file name). -/
def mentionsFile (fileId fileName : String) : TraceItem → Bool
  | .netCall (.fileExportCall d _) => d == fileId
  | .netCall (.uploadInitCall n _) => n == fileName
  | _ => false

/-- `uploadFile`'s trace when the initation succeeds: the initiation call
followed by the PUT to the returned location, whatever the PUT's result. -/
theorem uploadFile_trace (env : Env) (n dt : String) (meta : MetaResp)
    (hu : env.uploadInit n = .ok meta) :
    (uploadFile env n dt).trace =
      [.netCall (.uploadInitCall n dt),
       .netCall (.uploadPutCall (jsStringOfNull meta.location))] := by
  simp only [uploadFile, hu, emit_eq, liftEx_ok, run_bind_ok]
  rcases hput : env.uploadPut n with e | b
  · simp [hput]
  · simp only [hput, liftEx_ok, run_bind_ok]
    rcases hhe : handleErrors b with _ | v <;> simp [hhe]

theorem copyOne_spreadsheet (env : Env) (f : DriveFile) (meta : MetaResp)
    (hm : f.mimeType = "application/vnd.google-apps.spreadsheet")
    (he : env.fileExport f.id = .ok ())
    (hu : env.uploadInit f.name = .ok meta) :
    copyOne env f =
      ⟨[.netCall (.fileExportCall f.id "xlsx"),
        .netCall (.uploadInitCall f.name "xlsx"),
        .netCall (.uploadPutCall (jsStringOfNull meta.location))], .ok ()⟩ := by
  have hdt : getDocumentType f.mimeType = "xlsx" := by simp [getDocumentType, hm]
  have hgf : getFile env f.id "xlsx" =
      ⟨[.netCall (.fileExportCall f.id "xlsx")], .ok ()⟩ := by
    simp [getFile, he]
  have hup := uploadFile_trace env f.name "xlsx" meta hu
  simp only [copyOne, hdt]
  simp only [show (("xlsx" : String) == "xlsx" || ("xlsx" : String) == "docx") = true from
    by decide, if_true]
  simp only [detach, hgf, run_bind_ok]
  rw [hup]
  rfl

theorem copyOne_document (env : Env) (f : DriveFile) (meta : MetaResp)
    (hm : f.mimeType = "application/vnd.google-apps.document")
    (he : env.fileExport f.id = .ok ())
    (hu : env.uploadInit f.name = .ok meta) :
    copyOne env f =
      ⟨[.netCall (.fileExportCall f.id "docx"),
        .netCall (.uploadInitCall f.name "docx"),
        .netCall (.uploadPutCall (jsStringOfNull meta.location))], .ok ()⟩ := by
  have hdt : getDocumentType f.mimeType = "docx" := by simp [getDocumentType, hm]
  have hgf : getFile env f.id "docx" =
      ⟨[.netCall (.fileExportCall f.id "docx")], .ok ()⟩ := by
    simp [getFile, he]
  have hup := uploadFile_trace env f.name "docx" meta hu
  simp only [copyOne, hdt]
  simp only [show (("docx" : String) == "xlsx" || ("docx" : String) == "docx") = true from
    by decide, if_true]
  simp only [detach, hgf, run_bind_ok]
  rw [hup]
  rfl

theorem copyOne_skip (env : Env) (f : DriveFile)
    (hs : f.mimeType ≠ "application/vnd.google-apps.spreadsheet")
    (hd : f.mimeType ≠ "application/vnd.google-apps.document") :
    copyOne env f = ⟨[], .ok ()⟩ := by
  rcases hfold : (f.mimeType == "application/vnd.google-apps.folder") with _ | _
  · have hdt : getDocumentType f.mimeType = "file" := by
      simp_all [getDocumentType]
    simp [copyOne, hdt]
  · have hdt : getDocumentType f.mimeType = "folder" := by
      simp_all [getDocumentType]
    simp [copyOne, hdt]

/-- C8: if the listed children of the resolved template folder are exactly
one spreadsheet, one word-processor document and one file of any other MIME
type, the copier performs exactly two export calls (one xlsx, one docx) and
two upload initiations (plus their two PUTs), and no copy-related network
call addresses the unrecognized file. -/
theorem c8_two_copies (env : Env) (qb lb : Body) (qfs : List DriveFile) (m : DriveFile)
    (tname : String) (target : Option String) (f1 f2 f3 : DriveFile) (meta1 meta2 : MetaResp)
    (hq : env.templateQueryBody = .ok qb) (hqf : qb.files = some qfs)
    (hfind : qfs.find? (fun item => item.name == tname) = some m)
    (hl : env.templateListBody m.id = .ok lb)
    (hlf : lb.files = some [f1, f2, f3])
    (hm1 : f1.mimeType = "application/vnd.google-apps.spreadsheet")
    (hm2 : f2.mimeType = "application/vnd.google-apps.document")
    (hm3s : f3.mimeType ≠ "application/vnd.google-apps.spreadsheet")
    (hm3d : f3.mimeType ≠ "application/vnd.google-apps.document")
    (he1 : env.fileExport f1.id = .ok ()) (he2 : env.fileExport f2.id = .ok ())
    (hu1 : env.uploadInit f1.name = .ok meta1) (hu2 : env.uploadInit f2.name = .ok meta2) :
    (addTemplate env tname target).trace.filter isExportCall =
      [.netCall (.fileExportCall f1.id "xlsx"), .netCall (.fileExportCall f2.id "docx")] ∧
    (addTemplate env tname target).trace.filter isUploadInitCall =
      [.netCall (.uploadInitCall f1.name "xlsx"), .netCall (.uploadInitCall f2.name "docx")] ∧
    (addTemplate env tname target).trace.countP isUploadPutCall = 2 ∧
    (f3.id ≠ f1.id → f3.id ≠ f2.id → f3.name ≠ f1.name → f3.name ≠ f2.name →
      (addTemplate env tname target).trace.filter (mentionsFile f3.id f3.name) = []) := by
  have hc1 := copyOne_spreadsheet env f1 meta1 hm1 he1 hu1
  have hc2 := copyOne_document env f2 meta2 hm2 he2 hu2
  have hc3 := copyOne_skip env f3 hm3s hm3d
  have hloop : copyLoop env [f1, f2, f3] =
      ⟨[.netCall (.fileExportCall f1.id "xlsx"),
        .netCall (.uploadInitCall f1.name "xlsx"),
        .netCall (.uploadPutCall (jsStringOfNull meta1.location)),
        .netCall (.fileExportCall f2.id "docx"),
        .netCall (.uploadInitCall f2.name "docx"),
        .netCall (.uploadPutCall (jsStringOfNull meta2.location))], .ok ()⟩ := by
    simp only [copyLoop, hc1, hc2, hc3, run_bind_ok, pure_eq]
    rfl
  have h1 := getTemplateFolderId_ok env qb qfs tname hq hqf
  rw [hfind] at h1
  simp only [Option.map_some'] at h1
  have h2 := getFolderItemsByID_ok env lb m.id hl
  have htr : addTemplate env tname target =
      ⟨[.netCall (.templateQueryCall tname),
        .netCall (.templateListCall m.id),
        .netCall (.fileExportCall f1.id "xlsx"),
        .netCall (.uploadInitCall f1.name "xlsx"),
        .netCall (.uploadPutCall (jsStringOfNull meta1.location)),
        .netCall (.fileExportCall f2.id "docx"),
        .netCall (.uploadInitCall f2.name "docx"),
        .netCall (.uploadPutCall (jsStringOfNull meta2.location))], .ok ()⟩ := by
    simp only [addTemplate, h1, run_bind_ok, jsStringOfNull, h2, hlf, hloop]
    rfl
  refine ⟨?_, ?_, ?_, ?_⟩
  · rw [htr]
    simp [isExportCall]
  · rw [htr]
    simp [isUploadInitCall]
  · rw [htr]
    simp [isUploadPutCall]
  · intro hne1 hne2 hne3 hne4
    rw [htr]
    simp [mentionsFile, Ne.symm hne1, Ne.symm hne2, Ne.symm hne3, Ne.symm hne4]

/-- Healthy environment whose template folder lists one spreadsheet, one
document and one video file. -/
def threeKids : List DriveFile :=
  [⟨"s1", "sheet", "application/vnd.google-apps.spreadsheet"⟩,
   ⟨"d1", "doc", "application/vnd.google-apps.document"⟩,
   ⟨"v1", "video", "video/mp4"⟩]

def envThreeFiles : Env :=
  { envOk with templateListBody := fun _ => .ok { files := some threeKids } }

/-- Witness for C8 at the three-children template folder. -/
theorem c8_two_copies_witness :
    (addTemplate envThreeFiles "mytmpl" (some "fold1")).trace.filter isExportCall =
      [.netCall (.fileExportCall "s1" "xlsx"), .netCall (.fileExportCall "d1" "docx")] ∧
    (addTemplate envThreeFiles "mytmpl" (some "fold1")).trace.filter isUploadInitCall =
      [.netCall (.uploadInitCall "sheet" "xlsx"), .netCall (.uploadInitCall "doc" "docx")] ∧
    (addTemplate envThreeFiles "mytmpl" (some "fold1")).trace.countP isUploadPutCall = 2 ∧
    (addTemplate envThreeFiles "mytmpl" (some "fold1")).trace.filter
      (mentionsFile "v1" "video") = [] := by
  have h := c8_two_copies envThreeFiles
    { files := some [⟨"tf1", "mytmpl", "application/vnd.google-apps.folder"⟩] }
    { files := some threeKids }
    [⟨"tf1", "mytmpl", "application/vnd.google-apps.folder"⟩]
    ⟨"tf1", "mytmpl", "application/vnd.google-apps.folder"⟩
    "mytmpl" (some "fold1")
    ⟨"s1", "sheet", "application/vnd.google-apps.spreadsheet"⟩
    ⟨"d1", "doc", "application/vnd.google-apps.document"⟩
    ⟨"v1", "video", "video/mp4"⟩
    { location := some "https://upload.example/loc1" }
    { location := some "https://upload.example/loc1" }
    rfl rfl (by decide) rfl rfl rfl rfl (by decide) (by decide) rfl rfl rfl rfl
  exact ⟨h.1, h.2.1, h.2.2.1, h.2.2.2 (by decide) (by decide) (by decide) (by decide)⟩

/-! ## Claim C9 -/

/-- Healthy environment whose template-library query matches nothing and
whose folder listings are empty. -/
def envNoTemplate : Env :=
  { envOk with
    templateQueryBody := .ok { files := some [] },
    templateListBody := fun _ => .ok { files := some [] } }

/-- C9 counterexample: when no child matches the template name, the copy
stage does not fail at all — `getTemplateFolderId` returns `null`, which is
interpolated as the string `"null"` into the folder-listing call that is
then performed, and `addTemplate` completes normally. -/
theorem c9_counterexample :
    addTemplate envNoTemplate "missing" (some "fold1") =
      ⟨[.netCall (.templateQueryCall "missing"), .netCall (.templateListCall "null")],
        .ok ()⟩ ∧
    (addTemplate envNoTemplate "missing" (some "fold1")).result = .ok () ∧
    (getTemplateFolderId envNoTemplate "missing").result = .ok none :=
  ⟨rfl, rfl, rfl⟩

/-- C9 amended: a `templateName` matching no child makes `getTemplateFolderId`
return `null` without raising any error; `addTemplate` then performs the
folder-listing network call with parent id `"null"` and — when that listing
reports no files — completes normally with no export or upload call. -/
theorem c9_amended (env : Env) (qb lb : Body) (qfs : List DriveFile) (tname : String)
    (target : Option String)
    (hq : env.templateQueryBody = .ok qb) (hqf : qb.files = some qfs)
    (hnomatch : ∀ f ∈ qfs, (f.name == tname) = false)
    (hl : env.templateListBody "null" = .ok lb) (hlf : lb.files = some []) :
    addTemplate env tname target =
      ⟨[.netCall (.templateQueryCall tname), .netCall (.templateListCall "null")],
        .ok ()⟩ := by
  have hfind : qfs.find? (fun item => item.name == tname) = none := by
    rw [List.find?_eq_none]
    intro f hf
    simp [hnomatch f hf]
  have h1 := getTemplateFolderId_ok env qb qfs tname hq hqf
  rw [hfind] at h1
  simp only [Option.map_none'] at h1
  have h2 := getFolderItemsByID_ok env lb "null" hl
  simp only [addTemplate, h1, run_bind_ok, jsStringOfNull, h2, hlf]
  simp [copyLoop]

/-- Witness for C9's amended statement. -/
theorem c9_amended_witness :
    addTemplate envNoTemplate "absent" (some "fold1") =
      ⟨[.netCall (.templateQueryCall "absent"), .netCall (.templateListCall "null")],
        .ok ()⟩ :=
  c9_amended envNoTemplate { files := some [] } { files := some [] } [] "absent"
    (some "fold1") rfl rfl (by intro f hf; simp at hf) rfl rfl

/-! ## Claim C10 -/

/-- C10: whenever the parsed folder-creation response body carries an
`error` field, the exception thrown by `createFolder` ends in the literal
text `undefined` (the interpolated `errormsg` local is never assigned);
whenever the body has no `error` field, `createFolder` returns the body's
`id` without throwing; and the HTTP status is never consulted. -/
theorem c10_createFolder_undefined (env : Env) (data : Body) (err : ErrorInfo)
    (name : String) (tok : Option String)
    (hb : env.createFolderBody = .ok data) :
    (data.error = some err →
      (createFolder env name tok).result =
        .error ⟨"\nFailed to create Google drive Folder : undefined"⟩ ∧
      ∃ p, "\nFailed to create Google drive Folder : undefined" = p ++ "undefined") ∧
    (data.error = none → (createFolder env name tok).result = .ok data.id) ∧
    (∀ n : Nat, createFolder { env with createFolderStatus := n } name tok =
      createFolder env name tok) := by
  refine ⟨?_, ?_, fun n => rfl⟩
  · intro he
    have hsome : (handleErrors data).isSome = true := by
      rcases hm : err.message with _ | msg
      · simp [handleErrors, he, hm]
      · simp only [handleErrors, he, hm]
        split
        · rfl
        · split <;> rfl
    refine ⟨?_, ⟨"\nFailed to create Google drive Folder : ", rfl⟩⟩
    simp [createFolder, hb, hsome, jsStringOfUndefined]
  · intro he
    simp [createFolder, hb, handleErrors_none he]

/-- Environment whose folder-creation response body carries an error with a
provider message. -/
def envFolderError : Env :=
  { envOk with
    createFolderBody := .ok { error := some { message := some "User message: quota exceeded" } } }

/-- Witness for C10: the thrown message at a concrete error body, and the
normal return at the healthy body. -/
theorem c10_createFolder_undefined_witness :
    (createFolder envFolderError "mysite" (some "gAT7")).result =
      .error ⟨"\nFailed to create Google drive Folder : undefined"⟩ ∧
    (createFolder envOk "mysite" (some "gAT7")).result = .ok (some "fold1") :=
  ⟨((c10_createFolder_undefined envFolderError
      { error := some { message := some "User message: quota exceeded" } }
      { message := some "User message: quota exceeded" } "mysite" (some "gAT7") rfl).1 rfl).1,
   (c10_createFolder_undefined envOk { id := some "fold1" } { message := none }
      "mysite" (some "gAT7") rfl).2.1 rfl⟩
